import Mathlib

/-!
Shallow embedding of the conversation/message service of `minecraft_ai`
(files `src/minecraft_ai/api/security.py`, `src/minecraft_ai/api/routers/chat.py`,
`src/minecraft_ai/database/models.py`), together with theorems checking the
specification claims about it.

Conventions of the embedding:
* timestamps (`datetime.utcnow()`) are modelled as natural numbers supplied as
  explicit parameters, one per `utcnow()` call site;
* the SQL store is a record of lists kept in insertion (primary-key) order;
* the SQLAlchemy session is modelled explicitly: `add` stages a row,
  `commit` appends the staged rows to the store, `rollback` discards them;
* `ORDER BY timestamp` is modelled as a stable sort by timestamp over the
  insertion-ordered table (ties keep insertion order, i.e. ascending id,
  matching the row-scan behaviour of the backing store);
* Python optional strings are `Option String`; Python truthiness of a string
  (`if s:`) is false for both the absent value and the empty string;
* the external pydantic-ai agent (`ai_agent.run`) is an oracle function from
  the message and history to an outcome: a `ChatResponse`-typed result, a
  result of some other type, or a raised exception carrying a message string;
* `HTTPException(status_code, detail)` is a pair of a status and a detail
  payload; the 422 validation detail is the structured record the code builds.
-/

/-- A role/content pair, as in `pydantic_ai.messages.ModelMessage` used by the
router to hand history to the agent. -/
structure ModelMessage where
  role : String
  content : String
deriving DecidableEq

/-- A row of the `conversation` table (`database/models.py`, class
`Conversation`). -/
structure Conversation where
  id : Nat
  owner_identifier : String
  player_uuid : Option String
  player_username : Option String
  topic : Option String
  created_at : Nat
deriving DecidableEq

/-- A row of the `conversationmessage` table (`database/models.py`, class
`ConversationMessage`). -/
structure ConversationMessage where
  id : Nat
  conversation_id : Nat
  role : String
  content : String
  timestamp : Nat
deriving DecidableEq

/-- The relational store: both tables in insertion order, plus the next
primary key the message table will assign. -/
structure Store where
  conversations : List Conversation
  messages : List ConversationMessage
  nextMsgId : Nat
deriving DecidableEq

/-- Detail payload of an `HTTPException`: either a plain string or the
structured list entry the router builds for the 422 validation failure. -/
inductive ErrorDetail where
  | text (s : String)
  | fieldError (loc : List String) (msg : String) (ty : String)
deriving DecidableEq

/-- An `HTTPException` as raised by the router and the security module. -/
structure ApiError where
  status_code : Nat
  detail : ErrorDetail
deriving DecidableEq

/-- Python truthiness of an optional string: `None` and `""` are falsy,
anything else is truthy. -/
def pyTruthy : Option String → Bool
  | none => false
  | some s => !(s == "")

/-- `str.strip()` restricted to its emptiness behaviour: drop leading and
trailing whitespace characters. -/
def pyStrip (s : String) : String :=
  String.mk (((s.data.dropWhile Char.isWhitespace).reverse.dropWhile
    Char.isWhitespace).reverse)

/-! ## Access Guard: `verify_api_key` (api/security.py, lines 13-42)

`configured` is `os.getenv("MINECRAFT_AI_API_KEY")` (absent or a string),
`supplied` is the `X-API-Key` header value (absent or a string). The Python
code tests `if not configured_key:` and `if not api_key:`, i.e. truthiness. -/

def verify_api_key (configured supplied : Option String) :
    Except ApiError String :=
  if !(pyTruthy configured) then
    .error ⟨500, .text "Server configuration error: API Key not configured."⟩
  else if !(pyTruthy supplied) then
    .error ⟨401,
      .text "API key required. Please provide a key in the X-API-Key header."⟩
  else if supplied.getD "" != configured.getD "" then
    .error ⟨401, .text "Invalid API key."⟩
  else
    .ok (supplied.getD "")

/-! ## Rate limiter (api/routers/chat.py, lines 28-43)

The store `_rate_limit_store` is a dict from `f"{api_key}:{now // RATE_PERIOD}"`
to a count, modelled as a total map defaulting to 0 (`dict.get(key, 0)`). -/

def RATE_LIMIT : Nat := 10

def RATE_PERIOD : Nat := 60

/-- The in-memory rate-limit store: key to count, absent keys count 0. -/
def RateStore := String → Nat

/-- The window key `f"{api_key}:{now // RATE_PERIOD}"`. -/
def rateKey (api_key : String) (now : Nat) : String :=
  api_key ++ ":" ++ toString (now / RATE_PERIOD)

/-- The detail string of the 429 response. -/
def rateLimitDetail : String :=
  "Rate limit exceeded: " ++ toString RATE_LIMIT ++ " requests per "
    ++ toString RATE_PERIOD ++ " seconds."

/-- `rate_limiter(request, api_key)`: raise 429 without touching the store
when the current window count reached `RATE_LIMIT`, otherwise store the
incremented count. -/
def rate_limiter (st : RateStore) (api_key : String) (now : Nat) :
    Except ApiError RateStore :=
  let key := rateKey api_key now
  let count := st key
  if count ≥ RATE_LIMIT then
    .error ⟨429, .text rateLimitDetail⟩
  else
    .ok (fun k => if k == key then count + 1 else st k)

/-- The all-zero rate store (fresh process). -/
def emptyRateStore : RateStore := fun _ => 0

/-- Run `rate_limiter` `n` times in sequence with the same key and clock,
stopping at the first failure. -/
def rateRepeat (api_key : String) (now : Nat) : Nat → RateStore →
    Except ApiError RateStore
  | 0, st => .ok st
  | n + 1, st =>
    match rate_limiter st api_key now with
    | .ok st2 => rateRepeat api_key now n st2
    | .error e => .error e

/-- The store after `n` successful calls, or the empty store if a call in the
sequence failed (used only to name the intermediate store in scenarios). -/
def rateAfter (api_key : String) (now : Nat) (n : Nat) : RateStore :=
  match rateRepeat api_key now n emptyRateStore with
  | .ok st => st
  | .error _ => emptyRateStore

/-! ## Conversation store queries

`db.get(Conversation, conversation_id)` is a primary-key lookup;
`select(ConversationMessage).where(conversation_id == cid).order_by(timestamp)`
scans the table in insertion order and sorts by the timestamp column, keeping
ties in scan order. The sort is written as a stable insertion sort. -/

/-- Primary-key lookup `db.get(Conversation, conversation_id)`. -/
def getConversation (db : Store) (conversation_id : Nat) : Option Conversation :=
  db.conversations.find? (fun c => c.id == conversation_id)

/-- Insert `m` into a timestamp-sorted list, before the first row whose
timestamp is not smaller (so rows already in the list with an equal timestamp
stay in front only if they came earlier in the scan: see `sortByTimestamp`). -/
def insertByTimestamp (m : ConversationMessage) :
    List ConversationMessage → List ConversationMessage
  | [] => [m]
  | y :: ys =>
    if m.timestamp ≤ y.timestamp then m :: y :: ys else y :: insertByTimestamp m ys

/-- Stable sort of the scanned rows by the `timestamp` column: a row is placed
before every later-scanned row with the same timestamp. -/
def sortByTimestamp : List ConversationMessage → List ConversationMessage
  | [] => []
  | x :: xs => insertByTimestamp x (sortByTimestamp xs)

/-- The history query of `add_message_to_conversation` (chat.py lines
165-171): rows of the conversation, ordered by timestamp. -/
def loadHistory (db : Store) (conversation_id : Nat) : List ConversationMessage :=
  sortByTimestamp (db.messages.filter (fun m => m.conversation_id == conversation_id))

/-! ## SQLAlchemy session

`db.add` stages a row, `db.commit()` appends every staged row to the table
(assigning primary keys in staging order), `db.rollback()` discards the staged
rows and leaves the committed table untouched. -/

/-- A session over the store: the committed state plus the staged rows. -/
structure Sess where
  committed : Store
  pending : List ConversationMessage
deriving DecidableEq

/-- Open a session on a store (nothing staged). -/
def Sess.start (db : Store) : Sess := ⟨db, []⟩

/-- `db.add(m)`: stage a message row. -/
def Sess.addRow (s : Sess) (m : ConversationMessage) : Sess :=
  ⟨s.committed, s.pending ++ [m]⟩

/-- `db.commit()`: append the staged rows to the table and advance the
primary-key counter. -/
def Sess.commitAll (s : Sess) : Sess :=
  ⟨⟨s.committed.conversations, s.committed.messages ++ s.pending,
    s.committed.nextMsgId + s.pending.length⟩, []⟩

/-- `db.rollback()`: discard the staged rows. -/
def Sess.rollbackAll (s : Sess) : Sess :=
  ⟨s.committed, []⟩

/-! ## `list_conversations` (chat.py, lines 86-122)

The statement always filters on `owner_identifier == api_key`; each optional
query filter is added only when the Python value is truthy (`if player_uuid:`),
so an absent value and an empty string both leave the filter off. The SQL
column comparison `Conversation.player_uuid == value` is false on NULL. -/

def list_conversations (db : Store) (api_key : String)
    (player_uuid player_username : Option String) : List Conversation :=
  let owner_identifier := api_key
  let s1 := db.conversations.filter (fun c => c.owner_identifier == owner_identifier)
  let s2 := if pyTruthy player_uuid then
      s1.filter (fun c => c.player_uuid == player_uuid)
    else s1
  if pyTruthy player_username then
    s2.filter (fun c => c.player_username == player_username)
  else s2

/-! ## External agent

`ai_agent` is `None` when construction failed (503 branch); otherwise
`ai_agent.run(message=..., message_history=...)` either raises or returns a
result whose `.data` is a `ChatResponse` or some other type. -/

/-- What one `ai_agent.run(...).data` interaction can yield. -/
inductive AgentOutcome where
  | chatResponse (reply : String)
  | otherData (tyName : String)
  | raises (excMessage : String)
deriving DecidableEq

/-- The agent as an oracle from `(message, message_history)` to an outcome. -/
def Responder := String → List ModelMessage → AgentOutcome

/-- The fixed 404 of the ownership/existence check. -/
def notFoundError : ApiError := ⟨404, .text "Conversation not found"⟩

/-- The fixed 503 of the missing-agent check. -/
def agentUnavailableError : ApiError :=
  ⟨503, .text "AI service is not available. Please check server configuration."⟩

/-- The fixed 422 of the whitespace-only check (chat.py lines 139-148). -/
def emptyMessageError : ApiError :=
  ⟨422, .fieldError ["body", "message"]
    "Message cannot be empty or consist only of whitespace" "value_error"⟩

/-- Detail prefix of the catch-all 500 (chat.py line 231): the f-string
`"Internal server error processing request: "` followed by `str(e)`. -/
def internalErrorDetail (excMessage : String) : ApiError :=
  ⟨500, .text ("Internal server error processing request: " ++ excMessage)⟩

/-- `str(e)` for the inner `HTTPException(500, "AI agent returned an
unexpected response format.")` raised in the unrecognized-shape branch and
caught by the catch-all handler: Starlette renders it as
`f"{status_code}: {detail}"`. -/
def unexpectedShapeText : String :=
  "500: AI agent returned an unexpected response format."

/-! ## `add_message_to_conversation` (chat.py, lines 125-232)

The steps, in source order: whitespace validation (138), ownership/existence
(153-156), agent availability (158), history load (165-177), staging of the
user row (179-186), agent run (191). On a `ChatResponse` result the assistant
row is staged and both are committed (200-213); on any other result shape the
session is rolled back and an `HTTPException` is raised (214-223), which the
enclosing `except Exception` catches, rolls back again and rewraps (225-232);
an exception from the run itself takes the same catch-all path. -/

/-- The turn-structured history handed to the agent (chat.py lines 173-177):
the ordered rows converted to role/content pairs. -/
def buildMessageHistory (db : Store) (conversation_id : Nat) : List ModelMessage :=
  (loadHistory db conversation_id).map (fun m => ModelMessage.mk m.role m.content)

def add_message_to_conversation (db : Store) (ai_agent : Option Responder)
    (api_key : String) (conversation_id : Nat) (message : String)
    (tUser tAssistant : Nat) : Except ApiError String × Store :=
  if message == "" || pyStrip message == "" then
    (.error emptyMessageError, db)
  else
    let owner_identifier := api_key
    match getConversation db conversation_id with
    | none => (.error notFoundError, db)
    | some conversation =>
      if conversation.owner_identifier != owner_identifier then
        (.error notFoundError, db)
      else
        match ai_agent with
        | none => (.error agentUnavailableError, db)
        | some agent =>
          let message_history := buildMessageHistory db conversation_id
          let user_message : ConversationMessage :=
            ⟨db.nextMsgId, conversation_id, "user", message, tUser⟩
          let s1 := (Sess.start db).addRow user_message
          match agent message message_history with
          | .chatResponse ai_reply =>
            let assistant_message : ConversationMessage :=
              ⟨db.nextMsgId + 1, conversation_id, "assistant", ai_reply, tAssistant⟩
            let s2 := (s1.addRow assistant_message).commitAll
            (.ok ai_reply, s2.committed)
          | .otherData _ =>
            let s2 := (s1.rollbackAll).rollbackAll
            (.error (internalErrorDetail unexpectedShapeText), s2.committed)
          | .raises excMessage =>
            let s2 := s1.rollbackAll
            (.error (internalErrorDetail excMessage), s2.committed)

/-- The §3 history order: strictly earlier timestamp, or an equal timestamp
and a strictly smaller (earlier-inserted) id. -/
def tsIdLt (m1 m2 : ConversationMessage) : Prop :=
  m1.timestamp < m2.timestamp ∨
    (m1.timestamp = m2.timestamp ∧ m1.id < m2.id)

/-! ## Sample data for witnesses and counterexamples -/

/-- The saturated rate store: every window count already at the limit. -/
def fullRateStore : RateStore := fun _ => 10

/-- A conversation owned by `"key1"`. -/
def sampleConv : Conversation := ⟨1, "key1", none, none, none, 0⟩

/-- A store holding only `sampleConv` and no messages. -/
def sampleStore : Store := ⟨[sampleConv], [], 0⟩

/-- The empty store. -/
def emptyStore : Store := ⟨[], [], 0⟩

/-- A conversation of owner `"k"` with correlation ids. -/
def convU1 : Conversation := ⟨1, "k", some "u1", some "user1", some "A", 0⟩

/-- A second conversation of owner `"k"`. -/
def convU2 : Conversation := ⟨2, "k", some "u2", some "user2", some "B", 0⟩

/-- A conversation of a different owner sharing `convU1`-style filters. -/
def convForeign : Conversation := ⟨3, "other", some "u1", some "user1", none, 0⟩

/-- A store with two owners and distinct correlation ids. -/
def listStore : Store := ⟨[convU1, convU2, convForeign], [], 0⟩

/-- A store for history-order checks: `sampleConv` plus three messages of
conversation 1 whose timestamps tie pairwise (rows 0 and 1 at time 5) and
invert insertion order against time (row 2 at time 4). -/
def tieStore : Store :=
  ⟨[sampleConv],
   [⟨0, 1, "user", "m0", 5⟩, ⟨1, 1, "assistant", "m1", 5⟩,
    ⟨2, 1, "user", "m2", 4⟩],
   3⟩

/-! ## Shared lemmas -/

/-- One under-limit step of the rate limiter, with the updated store spelled
out. -/
theorem rate_limiter_ok_step (st : RateStore) (owner : String) (now : Nat)
    (h : st (rateKey owner now) < RATE_LIMIT) :
    rate_limiter st owner now =
      .ok (fun k => if k == rateKey owner now then st (rateKey owner now) + 1
        else st k) := by
  simp only [rate_limiter]
  rw [if_neg (Nat.not_le.mpr h)]

/-- Running `n` under-limit steps adds `n` to the window count and leaves
every other key unchanged. -/
theorem rateRepeat_ok (owner : String) (now : Nat) :
    ∀ (n : Nat) (st : RateStore), st (rateKey owner now) + n ≤ RATE_LIMIT →
      ∃ st2, rateRepeat owner now n st = .ok st2 ∧
        st2 (rateKey owner now) = st (rateKey owner now) + n ∧
        ∀ k, k ≠ rateKey owner now → st2 k = st k := by
  intro n
  induction n with
  | zero =>
    intro st _
    exact ⟨st, rfl, rfl, fun _ _ => rfl⟩
  | succ n ih =>
    intro st h
    have hlt : st (rateKey owner now) < RATE_LIMIT := by omega
    have hstep := rate_limiter_ok_step st owner now hlt
    set st1 : RateStore :=
      fun k => if k == rateKey owner now then st (rateKey owner now) + 1
        else st k with hst1
    have hkey : st1 (rateKey owner now) = st (rateKey owner now) + 1 := by
      simp [hst1]
    have hoth : ∀ k, k ≠ rateKey owner now → st1 k = st k := by
      intro k hk
      simp only [hst1]
      rw [beq_eq_false_iff_ne.mpr hk]
      simp
    obtain ⟨st2, h2, h2key, h2oth⟩ := ih st1 (by omega)
    refine ⟨st2, ?_, ?_, ?_⟩
    · simp only [rateRepeat, hstep]
      exact h2
    · omega
    · intro k hk
      rw [h2oth k hk, hoth k hk]

/-! ## Claim C3: rate limiter behaviour -/

/-- C3: keyed by the owner and the window index `now / 60` with limit 10, the
limiter rejects with the 429 error (whose detail carries the limit and the
window) and leaves the count alone when the window count is at least 10, and
otherwise increments exactly that window count and succeeds; consequently the
eleventh call of an owner inside one window fails and a call in the next
window succeeds. -/
theorem rate_limiter_spec (st : RateStore) (owner : String) (now : Nat) :
    (RATE_LIMIT ≤ st (rateKey owner now) →
      rate_limiter st owner now = .error ⟨429, .text rateLimitDetail⟩) ∧
    (st (rateKey owner now) < RATE_LIMIT →
      ∃ st2, rate_limiter st owner now = .ok st2 ∧
        st2 (rateKey owner now) = st (rateKey owner now) + 1 ∧
        ∀ k, k ≠ rateKey owner now → st2 k = st k) ∧
    rateLimitDetail = "Rate limit exceeded: 10 requests per 60 seconds." ∧
    rateRepeat "k" 0 11 emptyRateStore = .error ⟨429, .text rateLimitDetail⟩ ∧
    (rateRepeat "k" 0 10 emptyRateStore).isOk = true ∧
    (rate_limiter (rateAfter "k" 0 10) "k" 60).isOk = true := by
  refine ⟨?_, ?_, by rfl, by rfl, by rfl, by rfl⟩
  · intro h
    simp only [rate_limiter]
    rw [if_pos h]
  · intro h
    obtain ⟨st2, h2, h2key, h2oth⟩ := rateRepeat_ok owner now 1 st (by omega)
    refine ⟨st2, ?_, h2key, h2oth⟩
    simp only [rateRepeat] at h2
    cases hcall : rate_limiter st owner now with
    | ok st3 => rw [hcall] at h2; simpa using h2
    | error e => rw [hcall] at h2; cases h2

/-- Witness for C3: a saturated window is rejected with the documented detail
and a fresh window is incremented. -/
theorem rate_limiter_spec_witness :
    rate_limiter fullRateStore "kk" 7 = .error ⟨429, .text rateLimitDetail⟩ ∧
    ∃ st2, rate_limiter emptyRateStore "kk" 7 = .ok st2 ∧
      st2 (rateKey "kk" 7) = emptyRateStore (rateKey "kk" 7) + 1 ∧
      ∀ k, k ≠ rateKey "kk" 7 → st2 k = emptyRateStore k :=
  ⟨(rate_limiter_spec fullRateStore "kk" 7).1 (by decide),
   (rate_limiter_spec emptyRateStore "kk" 7).2.1 (by decide)⟩

/-! ## Claim C7: the Access Guard -/

/-- C7 counterexample: with a configured credential `"k"` and a supplied
credential `""` that differs from it, the guard does not produce the
invalid-credential failure the claim requires for differing credentials; it
produces the missing-credential failure, whose detail is different. -/
theorem verify_api_key_claim_counterexample :
    verify_api_key (some "k") (some "") =
      .error ⟨401,
        .text "API key required. Please provide a key in the X-API-Key header."⟩ ∧
    some "" ≠ some "k" ∧
    ErrorDetail.text "API key required. Please provide a key in the X-API-Key header."
      ≠ ErrorDetail.text "Invalid API key." :=
  ⟨rfl, by decide, by decide⟩

/-- C7 (amended): the guard fails with the configuration error whenever the
configured credential is absent or empty, regardless of what is supplied;
fails with the missing-credential error when a non-empty credential is
configured but the supplied one is absent or empty; fails with the
invalid-credential error when a non-empty supplied credential differs from
the non-empty configured one; and on success returns the supplied credential
unchanged. -/
theorem verify_api_key_spec (configured supplied : Option String) :
    (pyTruthy configured = false →
      verify_api_key configured supplied =
        .error ⟨500, .text "Server configuration error: API Key not configured."⟩) ∧
    (∀ c, configured = some c → c ≠ "" → pyTruthy supplied = false →
      verify_api_key configured supplied =
        .error ⟨401,
          .text "API key required. Please provide a key in the X-API-Key header."⟩) ∧
    (∀ c s, configured = some c → supplied = some s → c ≠ "" → s ≠ "" → s ≠ c →
      verify_api_key configured supplied = .error ⟨401, .text "Invalid API key."⟩) ∧
    (∀ c s, configured = some c → supplied = some s → c ≠ "" → s ≠ "" → s = c →
      verify_api_key configured supplied = .ok s) := by
  refine ⟨?_, ?_, ?_, ?_⟩
  · intro h
    simp [verify_api_key, h]
  · intro c hc hcne hsup
    subst hc
    have hct : pyTruthy (some c) = true := by
      simp [pyTruthy, hcne]
    simp [verify_api_key, hct, hsup]
  · intro c s hc hs hcne hsne hne
    subst hc; subst hs
    have hct : pyTruthy (some c) = true := by simp [pyTruthy, hcne]
    have hst : pyTruthy (some s) = true := by simp [pyTruthy, hsne]
    simp [verify_api_key, hct, hst, hne]
  · intro c s hc hs hcne hsne heq
    subst hc; subst hs; subst heq
    have hst : pyTruthy (some s) = true := by simp [pyTruthy, hsne]
    simp [verify_api_key, hst]

/-- Witness for C7: all four branches at concrete credentials. -/
theorem verify_api_key_spec_witness :
    verify_api_key none (some "a") =
      .error ⟨500, .text "Server configuration error: API Key not configured."⟩ ∧
    verify_api_key (some "k") none =
      .error ⟨401,
        .text "API key required. Please provide a key in the X-API-Key header."⟩ ∧
    verify_api_key (some "k") (some "b") =
      .error ⟨401, .text "Invalid API key."⟩ ∧
    verify_api_key (some "k") (some "k") = .ok "k" :=
  ⟨(verify_api_key_spec none (some "a")).1 (by decide),
   (verify_api_key_spec (some "k") none).2.1 "k" rfl (by decide) (by decide),
   (verify_api_key_spec (some "k") (some "b")).2.2.1 "k" "b" rfl rfl
     (by decide) (by decide) (by decide),
   (verify_api_key_spec (some "k") (some "k")).2.2.2 "k" "k" rfl rfl
     (by decide) (by decide) rfl⟩

/-! ## Whitespace lemmas for the validation guard -/

/-- Dropping a leading all-whitespace prefix cannot hide a non-whitespace
character: if everything after the drop is whitespace, everything was. -/
theorem all_ws_of_dropWhile_all_ws {l : List Char}
    (h : ∀ c ∈ l.dropWhile Char.isWhitespace, c.isWhitespace = true) :
    ∀ c ∈ l, c.isWhitespace = true := by
  intro c hc
  rw [← List.takeWhile_append_dropWhile (p := Char.isWhitespace) (l := l)]
    at hc
  rcases List.mem_append.mp hc with h1 | h2
  · exact List.mem_takeWhile_imp h1
  · exact h c h2

/-- `pyStrip` empties a string exactly when every character is whitespace. -/
theorem pyStrip_eq_empty_iff (s : String) :
    pyStrip s = "" ↔ ∀ c ∈ s.data, c.isWhitespace = true := by
  unfold pyStrip
  constructor
  · intro h
    have hdata :
        (((s.data.dropWhile Char.isWhitespace).reverse.dropWhile
          Char.isWhitespace).reverse) = [] := by
      have := congrArg String.data h
      simpa using this
    rw [List.reverse_eq_nil_iff, List.dropWhile_eq_nil_iff] at hdata
    apply all_ws_of_dropWhile_all_ws
    intro c hc
    exact hdata c (List.mem_reverse.mpr hc)
  · intro h
    have h1 : s.data.dropWhile Char.isWhitespace = [] :=
      List.dropWhile_eq_nil_iff.mpr (fun c hc => h c hc)
    rw [h1]
    rfl

/-- The manual guard of chat.py line 138 fires on all-whitespace input. -/
theorem guard_true_of_ws (message : String)
    (h : ∀ c ∈ message.data, c.isWhitespace = true) :
    (message == "" || pyStrip message == "") = true := by
  have h2 : pyStrip message = "" := (pyStrip_eq_empty_iff message).mpr h
  simp [h2]

/-- The manual guard of chat.py line 138 passes any input holding a
non-whitespace character. -/
theorem guard_false_of_not_ws (message : String)
    (h : ¬ ∀ c ∈ message.data, c.isWhitespace = true) :
    (message == "" || pyStrip message == "") = false := by
  have h1 : message ≠ "" := by
    rintro rfl
    exact h (by intro c hc; simp at hc)
  have h2 : pyStrip message ≠ "" :=
    fun he => h ((pyStrip_eq_empty_iff message).mp he)
  simp [beq_eq_false_iff_ne.mpr h1, beq_eq_false_iff_ne.mpr h2]

/-! ## Branch lemmas for `add_message_to_conversation` -/

/-- Failing validation returns the 422 and leaves the store untouched. -/
theorem add_message_of_guard_true (db : Store) (ai_agent : Option Responder)
    (api_key : String) (conversation_id : Nat) (message : String)
    (tUser tAssistant : Nat)
    (h : (message == "" || pyStrip message == "") = true) :
    add_message_to_conversation db ai_agent api_key conversation_id message
      tUser tAssistant = (.error emptyMessageError, db) := by
  unfold add_message_to_conversation
  simp [h]

/-- A missing conversation, or one owned by someone else, returns the same
404 and leaves the store untouched. -/
theorem add_message_of_not_found (db : Store) (ai_agent : Option Responder)
    (api_key : String) (conversation_id : Nat) (message : String)
    (tUser tAssistant : Nat)
    (hg : (message == "" || pyStrip message == "") = false)
    (hcase : getConversation db conversation_id = none ∨
      ∃ c, getConversation db conversation_id = some c ∧
        c.owner_identifier ≠ api_key) :
    add_message_to_conversation db ai_agent api_key conversation_id message
      tUser tAssistant = (.error notFoundError, db) := by
  unfold add_message_to_conversation
  rcases hcase with h | ⟨c, hc, hne⟩
  · simp [hg, h]
  · simp [hg, hc, bne_iff_ne.mpr hne]

/-- With the guard passed and ownership verified, a raising agent run yields
the catch-all 500 wrapping the exception text, and the store is rolled back
to exactly its pre-call state. -/
theorem add_message_of_raises (db : Store) (r : Responder)
    (api_key : String) (conversation_id : Nat) (message : String)
    (tUser tAssistant : Nat) (c : Conversation) (excMessage : String)
    (hg : (message == "" || pyStrip message == "") = false)
    (hc : getConversation db conversation_id = some c)
    (ho : c.owner_identifier = api_key)
    (hr : r message (buildMessageHistory db conversation_id) =
      .raises excMessage) :
    add_message_to_conversation db (some r) api_key conversation_id message
      tUser tAssistant = (.error (internalErrorDetail excMessage), db) := by
  unfold add_message_to_conversation
  simp [hg, hc, ho, hr, Sess.start, Sess.addRow, Sess.rollbackAll]

/-- With the guard passed and ownership verified, an agent result of an
unrecognized shape yields the catch-all 500 wrapping the stringified inner
error, and the store is rolled back to exactly its pre-call state. -/
theorem add_message_of_other_shape (db : Store) (r : Responder)
    (api_key : String) (conversation_id : Nat) (message : String)
    (tUser tAssistant : Nat) (c : Conversation) (tyName : String)
    (hg : (message == "" || pyStrip message == "") = false)
    (hc : getConversation db conversation_id = some c)
    (ho : c.owner_identifier = api_key)
    (hr : r message (buildMessageHistory db conversation_id) =
      .otherData tyName) :
    add_message_to_conversation db (some r) api_key conversation_id message
      tUser tAssistant =
      (.error (internalErrorDetail unexpectedShapeText), db) := by
  unfold add_message_to_conversation
  simp [hg, hc, ho, hr, Sess.start, Sess.addRow, Sess.rollbackAll]

/-- With the guard passed and ownership verified, a structured reply commits
exactly the user row then the assistant row. -/
theorem add_message_of_chat_response (db : Store) (r : Responder)
    (api_key : String) (conversation_id : Nat) (message : String)
    (tUser tAssistant : Nat) (c : Conversation) (reply : String)
    (hg : (message == "" || pyStrip message == "") = false)
    (hc : getConversation db conversation_id = some c)
    (ho : c.owner_identifier = api_key)
    (hr : r message (buildMessageHistory db conversation_id) =
      .chatResponse reply) :
    add_message_to_conversation db (some r) api_key conversation_id message
      tUser tAssistant =
      (.ok reply,
       ⟨db.conversations,
        db.messages ++
          [⟨db.nextMsgId, conversation_id, "user", message, tUser⟩,
           ⟨db.nextMsgId + 1, conversation_id, "assistant", reply, tAssistant⟩],
        db.nextMsgId + 2⟩) := by
  unfold add_message_to_conversation
  simp [hg, hc, ho, hr, Sess.start, Sess.addRow, Sess.commitAll]

/-! ## Claim C6: whitespace-only messages are rejected before any write -/

/-- C6: a message that is empty or all-whitespace fails with the 422
validation error (structured detail on the body field) and the store is
returned exactly as it was: zero messages persisted. -/
theorem add_message_whitespace_rejected (db : Store)
    (ai_agent : Option Responder) (api_key : String) (conversation_id : Nat)
    (message : String) (tUser tAssistant : Nat)
    (h : ∀ ch ∈ message.data, ch.isWhitespace = true) :
    add_message_to_conversation db ai_agent api_key conversation_id message
      tUser tAssistant = (.error emptyMessageError, db) ∧
    emptyMessageError = ⟨422, .fieldError ["body", "message"]
      "Message cannot be empty or consist only of whitespace" "value_error"⟩ :=
  ⟨add_message_of_guard_true db ai_agent api_key conversation_id message
    tUser tAssistant (guard_true_of_ws message h), rfl⟩

/-- Witness for C6: the scenario message `"   "` against the sample store. -/
theorem add_message_whitespace_rejected_witness :
    add_message_to_conversation sampleStore none "key1" 1 "   " 3 4
      = (.error emptyMessageError, sampleStore) ∧
    emptyMessageError = ⟨422, .fieldError ["body", "message"]
      "Message cannot be empty or consist only of whitespace" "value_error"⟩ :=
  add_message_whitespace_rejected sampleStore none "key1" 1 "   " 3 4
    (by decide)

/-! ## Claim C2: non-existence and foreign ownership are indistinguishable -/

/-- C2: with valid text, a conversation id that resolves to nothing and one
that resolves to a conversation of a different owner produce the very same
404 failure value (same status, same detail) with the store untouched. -/
theorem add_message_not_found_uniform (db : Store)
    (ai_agent : Option Responder) (api_key : String) (conversation_id : Nat)
    (message : String) (tUser tAssistant : Nat)
    (hws : ¬ ∀ ch ∈ message.data, ch.isWhitespace = true)
    (hcase : getConversation db conversation_id = none ∨
      ∃ c, getConversation db conversation_id = some c ∧
        c.owner_identifier ≠ api_key) :
    add_message_to_conversation db ai_agent api_key conversation_id message
      tUser tAssistant = (.error notFoundError, db) ∧
    notFoundError = ⟨404, .text "Conversation not found"⟩ :=
  ⟨add_message_of_not_found db ai_agent api_key conversation_id message
    tUser tAssistant (guard_false_of_not_ws message hws) hcase, rfl⟩

/-- Witness for C2: a missing id on the empty store and a foreign-owned
conversation on the sample store produce the same error value. -/
theorem add_message_not_found_uniform_witness :
    add_message_to_conversation emptyStore none "key1" 9999 "Hi AI!" 3 4
      = (.error notFoundError, emptyStore) ∧
    add_message_to_conversation sampleStore none "intruder" 1 "Hi AI!" 3 4
      = (.error notFoundError, sampleStore) :=
  ⟨(add_message_not_found_uniform emptyStore none "key1" 9999 "Hi AI!" 3 4
      (by decide) (.inl (by rfl))).1,
   (add_message_not_found_uniform sampleStore none "intruder" 1 "Hi AI!" 3 4
      (by decide) (.inr ⟨sampleConv, rfl, by decide⟩)).1⟩

/-! ## Claim C10: order of the failure checks -/

/-- C10: the whitespace check precedes the existence/ownership check, which
precedes the agent-availability check: an all-whitespace message gets the 422
whatever the store and agent hold, and a missing or foreign conversation gets
the 404 even with no agent configured, never the 503. -/
theorem add_message_check_order (db : Store) (api_key : String)
    (conversation_id : Nat) (message : String) (tUser tAssistant : Nat) :
    ((∀ ch ∈ message.data, ch.isWhitespace = true) →
      ∀ ai_agent : Option Responder,
        add_message_to_conversation db ai_agent api_key conversation_id
          message tUser tAssistant = (.error emptyMessageError, db)) ∧
    ((¬ ∀ ch ∈ message.data, ch.isWhitespace = true) →
      (getConversation db conversation_id = none ∨
        ∃ c, getConversation db conversation_id = some c ∧
          c.owner_identifier ≠ api_key) →
      add_message_to_conversation db none api_key conversation_id message
        tUser tAssistant = (.error notFoundError, db)) ∧
    emptyMessageError.status_code = 422 ∧
    notFoundError.status_code = 404 ∧
    notFoundError ≠ agentUnavailableError := by
  refine ⟨?_, ?_, rfl, rfl, by decide⟩
  · intro h ai_agent
    exact add_message_of_guard_true db ai_agent api_key conversation_id
      message tUser tAssistant (guard_true_of_ws message h)
  · intro hws hcase
    exact add_message_of_not_found db none api_key conversation_id message
      tUser tAssistant (guard_false_of_not_ws message hws) hcase

/-- Witness for C10: a whitespace message on a store without the conversation
still gets the 422, and a foreign conversation with no agent still gets the
404. -/
theorem add_message_check_order_witness :
    add_message_to_conversation emptyStore none "key1" 9999 "  " 3 4
      = (.error emptyMessageError, emptyStore) ∧
    add_message_to_conversation sampleStore none "intruder2" 1 "Hello" 3 4
      = (.error notFoundError, sampleStore) :=
  ⟨(add_message_check_order emptyStore "key1" 9999 "  " 3 4).1 (by decide) none,
   (add_message_check_order sampleStore "intruder2" 1 "Hello" 3 4).2.1
     (by decide) (.inr ⟨sampleConv, rfl, by decide⟩)⟩

/-! ## Claim C1: generation failure rolls the user message back -/

/-- C1: on an owned, existing conversation with non-whitespace text, if the
agent run raises or its result is not the recognized structured reply, the
call fails with a 500 and the returned store is exactly the pre-call store:
the staged user message is rolled back and nothing is persisted. -/
theorem add_message_generation_failure_rollback (db : Store) (r : Responder)
    (api_key : String) (conversation_id : Nat) (message : String)
    (tUser tAssistant : Nat) (c : Conversation)
    (hws : ¬ ∀ ch ∈ message.data, ch.isWhitespace = true)
    (hc : getConversation db conversation_id = some c)
    (ho : c.owner_identifier = api_key)
    (hfail : ∀ reply,
      r message (buildMessageHistory db conversation_id) ≠
        .chatResponse reply) :
    ∃ s, add_message_to_conversation db (some r) api_key conversation_id
      message tUser tAssistant = (.error ⟨500, .text s⟩, db) := by
  have hg := guard_false_of_not_ws message hws
  cases hr : r message (buildMessageHistory db conversation_id) with
  | chatResponse reply => exact absurd hr (hfail reply)
  | otherData tyName =>
    exact ⟨"Internal server error processing request: " ++ unexpectedShapeText,
      add_message_of_other_shape db r api_key conversation_id message tUser
        tAssistant c tyName hg hc ho hr⟩
  | raises excMessage =>
    exact ⟨"Internal server error processing request: " ++ excMessage,
      add_message_of_raises db r api_key conversation_id message tUser
        tAssistant c excMessage hg hc ho hr⟩

/-- Witness for C1: an agent that raises, against the sample store: the store
comes back unchanged, with a 500. -/
theorem add_message_generation_failure_rollback_witness :
    ∃ s, add_message_to_conversation sampleStore
      (some (fun _ _ => .raises "boom")) "key1" 1 "Hi AI!" 5 6
      = (.error ⟨500, .text s⟩, sampleStore) :=
  add_message_generation_failure_rollback sampleStore
    (fun _ _ => .raises "boom") "key1" 1 "Hi AI!" 5 6 sampleConv
    (by decide) rfl rfl (fun reply h => nomatch h)

/-! ## Claim C9: the 500 detail echoes the internal exception -/

/-- C9 counterexample: with an agent run raising an exception whose message
is `"boom"`, the caller-visible 500 detail is the fixed prefix followed by
`"boom"` itself — the internal exception text is echoed verbatim, against
the claim that it never is. -/
theorem add_message_detail_leak_counterexample :
    (add_message_to_conversation sampleStore
        (some (fun _ _ => .raises "boom")) "key1" 1 "Hi AI!" 5 6).1
      = .error ⟨500,
          .text ("Internal server error processing request: " ++ "boom")⟩ ∧
    "boom".data.isSuffixOf
      ("Internal server error processing request: " ++ "boom").data = true :=
  ⟨rfl, by decide⟩

/-- C9 (amended): for an append-message failure in the generation step, the
error detail handed to the caller is the fixed prefix
`"Internal server error processing request: "` followed verbatim by the
internal exception text — the raised exception message, or the stringified
inner 500 for an unrecognized result shape. Internal details are logged and
echoed, not only logged. -/
theorem add_message_error_detail_embeds_exception (db : Store) (r : Responder)
    (api_key : String) (conversation_id : Nat) (message : String)
    (tUser tAssistant : Nat) (c : Conversation)
    (hws : ¬ ∀ ch ∈ message.data, ch.isWhitespace = true)
    (hc : getConversation db conversation_id = some c)
    (ho : c.owner_identifier = api_key) :
    (∀ excMessage,
      r message (buildMessageHistory db conversation_id) = .raises excMessage →
      (add_message_to_conversation db (some r) api_key conversation_id message
        tUser tAssistant).1
        = .error ⟨500,
            .text ("Internal server error processing request: " ++ excMessage)⟩) ∧
    (∀ tyName,
      r message (buildMessageHistory db conversation_id) = .otherData tyName →
      (add_message_to_conversation db (some r) api_key conversation_id message
        tUser tAssistant).1
        = .error ⟨500,
            .text ("Internal server error processing request: "
              ++ unexpectedShapeText)⟩) := by
  have hg := guard_false_of_not_ws message hws
  constructor
  · intro excMessage hr
    rw [add_message_of_raises db r api_key conversation_id message tUser
      tAssistant c excMessage hg hc ho hr]
    rfl
  · intro tyName hr
    rw [add_message_of_other_shape db r api_key conversation_id message tUser
      tAssistant c tyName hg hc ho hr]
    rfl

/-- Witness for C9: the raising branch at a concrete exception message. -/
theorem add_message_error_detail_embeds_exception_witness :
    (add_message_to_conversation sampleStore
        (some (fun _ _ => .raises "db on fire")) "key1" 1 "Hello" 5 6).1
      = .error ⟨500,
          .text ("Internal server error processing request: " ++ "db on fire")⟩ :=
  (add_message_error_detail_embeds_exception sampleStore
      (fun _ _ => .raises "db on fire") "key1" 1 "Hello" 5 6 sampleConv
      (by decide) rfl rfl).1 "db on fire" rfl

/-! ## Claim C5: listing is owner-scoped and filter-exact -/

/-- C5 counterexample: with the provided filter value `""`, the call returns
conversations whose `player_uuid` is not `""` — the Python truthiness test
`if player_uuid:` silently drops an empty-string filter, so the claim fails
as stated for that provided value. -/
theorem list_conversations_claim_counterexample :
    list_conversations listStore "k" (some "") none = [convU1, convU2] ∧
    convU1.player_uuid ≠ some "" :=
  ⟨rfl, by decide⟩

/-- C5 (amended): every conversation returned by `list_conversations` is
owned by the caller (so one owner never sees the conversations created under
another credential), and for every provided non-empty filter value the
corresponding field of every returned conversation equals that value exactly
(an empty-string filter value is treated as absent and applies no filter). -/
theorem list_conversations_spec (db : Store) (api_key : String)
    (player_uuid player_username : Option String) :
    (∀ c ∈ list_conversations db api_key player_uuid player_username,
      c.owner_identifier = api_key) ∧
    (∀ v, player_uuid = some v → v ≠ "" →
      ∀ c ∈ list_conversations db api_key player_uuid player_username,
        c.player_uuid = some v) ∧
    (∀ v, player_username = some v → v ≠ "" →
      ∀ c ∈ list_conversations db api_key player_uuid player_username,
        c.player_username = some v) := by
  refine ⟨?_, ?_, ?_⟩
  · intro c hc
    unfold list_conversations at hc
    have hc1 : c ∈ db.conversations.filter
        (fun c => c.owner_identifier == api_key) := by
      cases hpu : pyTruthy player_uuid <;>
        cases hpn : pyTruthy player_username <;>
        simp only [hpu, hpn, if_true, if_false, Bool.false_eq_true,
          reduceIte] at hc <;>
        first
          | exact hc
          | exact List.mem_of_mem_filter hc
          | exact List.mem_of_mem_filter (List.mem_of_mem_filter hc)
    simpa using List.of_mem_filter hc1
  · intro v hv hne c hc
    subst hv
    have hpu : pyTruthy (some v) = true := by simp [pyTruthy, hne]
    unfold list_conversations at hc
    have hc1 : c ∈ (db.conversations.filter
        (fun c => c.owner_identifier == api_key)).filter
          (fun c => c.player_uuid == some v) := by
      cases hpn : pyTruthy player_username <;>
        simp only [hpu, hpn, if_true, if_false, Bool.false_eq_true,
          reduceIte] at hc <;>
        first
          | exact hc
          | exact List.mem_of_mem_filter hc
    simpa using List.of_mem_filter hc1
  · intro v hv hne c hc
    subst hv
    have hpn : pyTruthy (some v) = true := by simp [pyTruthy, hne]
    unfold list_conversations at hc
    cases hpu : pyTruthy player_uuid <;>
      simp only [hpu, hpn, if_true, if_false, Bool.false_eq_true,
        reduceIte] at hc <;>
      simpa using List.of_mem_filter hc

/-- Witness for C5: on `listStore` with the filter `player_uuid = "u1"`, the
returned conversation `convU1` is owned by the caller and matches the filter
exactly. -/
theorem list_conversations_spec_witness :
    convU1.owner_identifier = "k" ∧ convU1.player_uuid = some "u1" :=
  ⟨(list_conversations_spec listStore "k" (some "u1") none).1 convU1
      (by decide),
   (list_conversations_spec listStore "k" (some "u1") none).2.1 "u1" rfl
      (by decide) convU1 (by decide)⟩

/-! ## Stable-sort lemmas for the history order -/

/-- Membership through `insertByTimestamp`. -/
theorem mem_insertByTimestamp {z m : ConversationMessage} :
    ∀ {l : List ConversationMessage}, z ∈ insertByTimestamp m l →
      z = m ∨ z ∈ l := by
  intro l
  induction l with
  | nil =>
    intro h
    simp [insertByTimestamp] at h
    exact .inl h
  | cons y ys ih =>
    intro h
    unfold insertByTimestamp at h
    by_cases hle : m.timestamp ≤ y.timestamp
    · rw [if_pos hle] at h
      rcases List.mem_cons.mp h with h1 | h2
      · exact .inl h1
      · exact .inr h2
    · rw [if_neg hle] at h
      rcases List.mem_cons.mp h with h1 | h2
      · exact .inr (h1 ▸ List.mem_cons_self y ys)
      · rcases ih h2 with h3 | h4
        · exact .inl h3
        · exact .inr (List.mem_cons_of_mem y h4)

/-- Membership through `sortByTimestamp`. -/
theorem mem_sortByTimestamp {z : ConversationMessage} :
    ∀ {l : List ConversationMessage}, z ∈ sortByTimestamp l → z ∈ l := by
  intro l
  induction l with
  | nil => intro h; exact h
  | cons x xs ih =>
    intro h
    rcases mem_insertByTimestamp h with h1 | h2
    · exact h1 ▸ List.mem_cons_self x xs
    · exact List.mem_cons_of_mem x (ih h2)

/-- The §3 order implies timestamp order. -/
theorem tsIdLt.ts_le {m1 m2 : ConversationMessage} (h : tsIdLt m1 m2) :
    m1.timestamp ≤ m2.timestamp := by
  rcases h with h | ⟨h, _⟩
  · exact Nat.le_of_lt h
  · exact Nat.le_of_eq h

/-- Inserting `m` into a `tsIdLt`-sorted list keeps it sorted, provided `m`
relates forward to every element it does not strictly postdate and backward
to every element it strictly postdates. -/
theorem pairwise_insertByTimestamp (m : ConversationMessage) :
    ∀ (l : List ConversationMessage), l.Pairwise tsIdLt →
      (∀ y ∈ l, m.timestamp ≤ y.timestamp → tsIdLt m y) →
      (∀ y ∈ l, ¬ m.timestamp ≤ y.timestamp → tsIdLt y m) →
      (insertByTimestamp m l).Pairwise tsIdLt := by
  intro l
  induction l with
  | nil =>
    intro _ _ _
    simp [insertByTimestamp]
  | cons y ys ih =>
    intro hl h1 h2
    obtain ⟨hy, hys⟩ := List.pairwise_cons.mp hl
    unfold insertByTimestamp
    by_cases hle : m.timestamp ≤ y.timestamp
    · rw [if_pos hle]
      refine List.pairwise_cons.mpr ⟨?_, hl⟩
      intro z hz
      rcases List.mem_cons.mp hz with h3 | h4
      · exact h3 ▸ h1 y (List.mem_cons_self y ys) hle
      · exact h1 z (List.mem_cons_of_mem y h4)
          (Nat.le_trans hle (hy z h4).ts_le)
    · rw [if_neg hle]
      refine List.pairwise_cons.mpr ⟨?_, ?_⟩
      · intro z hz
        rcases mem_insertByTimestamp hz with h3 | h4
        · exact h3 ▸ h2 y (List.mem_cons_self y ys) hle
        · exact hy z h4
      · exact ih hys
          (fun z hz hle2 => h1 z (List.mem_cons_of_mem y hz) hle2)
          (fun z hz hle2 => h2 z (List.mem_cons_of_mem y hz) hle2)

/-- Sorting a scan whose rows carry strictly increasing ids yields the §3
order: timestamp ascending, ties by id ascending. -/
theorem pairwise_sortByTimestamp :
    ∀ (l : List ConversationMessage),
      l.Pairwise (fun m1 m2 => m1.id < m2.id) →
      (sortByTimestamp l).Pairwise tsIdLt := by
  intro l
  induction l with
  | nil => intro _; simp [sortByTimestamp]
  | cons x xs ih =>
    intro hl
    obtain ⟨hx, hxs⟩ := List.pairwise_cons.mp hl
    refine pairwise_insertByTimestamp x (sortByTimestamp xs) (ih hxs) ?_ ?_
    · intro y hy hle
      rcases Nat.lt_or_ge x.timestamp y.timestamp with h | h
      · exact .inl h
      · exact .inr ⟨Nat.le_antisymm hle h, hx y (mem_sortByTimestamp hy)⟩
    · intro y hy hle
      exact .inl (Nat.lt_of_not_le hle)

/-- A scan already in timestamp order is left untouched by the sort. -/
theorem sortByTimestamp_of_sorted :
    ∀ {l : List ConversationMessage},
      l.Pairwise (fun m1 m2 => m1.timestamp ≤ m2.timestamp) →
      sortByTimestamp l = l := by
  intro l
  induction l with
  | nil => intro _; rfl
  | cons x xs ih =>
    intro h
    obtain ⟨hx, hxs⟩ := List.pairwise_cons.mp h
    show insertByTimestamp x (sortByTimestamp xs) = x :: xs
    rw [ih hxs]
    cases xs with
    | nil => rfl
    | cons y ys =>
      unfold insertByTimestamp
      rw [if_pos (hx y (List.mem_cons_self y ys))]

/-! ## Claim C8: history order is timestamp, ties by id -/

/-- C8: when the stored table is in insertion order with ascending ids, the
history `add_message_to_conversation` loads (and hands to the agent as
role/content pairs) is ordered by timestamp ascending with ties broken by id
ascending: of two stored rows of the conversation with equal timestamps, the
smaller id comes first. -/
theorem loadHistory_ordered (db : Store) (conversation_id : Nat)
    (hids : db.messages.Pairwise (fun m1 m2 => m1.id < m2.id)) :
    (loadHistory db conversation_id).Pairwise tsIdLt ∧
    buildMessageHistory db conversation_id =
      (loadHistory db conversation_id).map
        (fun m => ModelMessage.mk m.role m.content) :=
  ⟨pairwise_sortByTimestamp _ (hids.filter _), rfl⟩

/-- Witness for C8: on `tieStore` (rows with ids 0, 1 at time 5 and id 2 at
time 4) the loaded history is the time-4 row first, then the tied rows in id
order. -/
theorem loadHistory_ordered_witness :
    (loadHistory tieStore 1).Pairwise tsIdLt ∧
    loadHistory tieStore 1 =
      [⟨2, 1, "user", "m2", 4⟩, ⟨0, 1, "user", "m0", 5⟩,
       ⟨1, 1, "assistant", "m1", 5⟩] :=
  ⟨(loadHistory_ordered tieStore 1 (by decide)).1, rfl⟩

/-! ## Claim C4: the success round trip -/

/-- C4: on an owned conversation with valid text and an agent returning the
structured reply, the call returns exactly that reply and commits exactly two
new rows — the user row carrying the submitted text, then the assistant row
carrying the reply — and a subsequent history load returns the old history
with those two rows appended after it, roles and contents intact (stated for
a store whose rows of this conversation are in timestamp order not later
than the new rows, as produced by a monotone clock). -/
theorem add_message_success_roundtrip (db : Store) (r : Responder)
    (api_key : String) (conversation_id : Nat) (message reply : String)
    (tUser tAssistant : Nat) (c : Conversation)
    (hws : ¬ ∀ ch ∈ message.data, ch.isWhitespace = true)
    (hc : getConversation db conversation_id = some c)
    (ho : c.owner_identifier = api_key)
    (hr : r message (buildMessageHistory db conversation_id) =
      .chatResponse reply)
    (hsorted : (db.messages.filter
        (fun m => m.conversation_id == conversation_id)).Pairwise
        (fun m1 m2 => m1.timestamp ≤ m2.timestamp))
    (hbefore : ∀ m ∈ db.messages.filter
        (fun m => m.conversation_id == conversation_id),
      m.timestamp ≤ tUser)
    (hta : tUser ≤ tAssistant) :
    add_message_to_conversation db (some r) api_key conversation_id message
      tUser tAssistant
      = (.ok reply,
         ⟨db.conversations,
          db.messages ++
            [⟨db.nextMsgId, conversation_id, "user", message, tUser⟩,
             ⟨db.nextMsgId + 1, conversation_id, "assistant", reply,
               tAssistant⟩],
          db.nextMsgId + 2⟩) ∧
    loadHistory (add_message_to_conversation db (some r) api_key
        conversation_id message tUser tAssistant).2 conversation_id
      = loadHistory db conversation_id ++
          [⟨db.nextMsgId, conversation_id, "user", message, tUser⟩,
           ⟨db.nextMsgId + 1, conversation_id, "assistant", reply,
             tAssistant⟩] := by
  have hg := guard_false_of_not_ws message hws
  have hmain := add_message_of_chat_response db r api_key conversation_id
    message tUser tAssistant c reply hg hc ho hr
  refine ⟨hmain, ?_⟩
  rw [hmain]
  unfold loadHistory
  rw [List.filter_append]
  have hua : ([⟨db.nextMsgId, conversation_id, "user", message, tUser⟩,
      ⟨db.nextMsgId + 1, conversation_id, "assistant", reply,
        tAssistant⟩] : List ConversationMessage).filter
      (fun m => m.conversation_id == conversation_id)
      = [⟨db.nextMsgId, conversation_id, "user", message, tUser⟩,
         ⟨db.nextMsgId + 1, conversation_id, "assistant", reply,
           tAssistant⟩] := by
    simp [List.filter]
  rw [hua]
  have hpair2 : ([⟨db.nextMsgId, conversation_id, "user", message, tUser⟩,
      ⟨db.nextMsgId + 1, conversation_id, "assistant", reply,
        tAssistant⟩] : List ConversationMessage).Pairwise
      (fun m1 m2 => m1.timestamp ≤ m2.timestamp) := by
    simp [List.pairwise_cons, hta]
  have hcross : ∀ m1 ∈ db.messages.filter
      (fun m => m.conversation_id == conversation_id),
      ∀ m2 ∈ ([⟨db.nextMsgId, conversation_id, "user", message, tUser⟩,
        ⟨db.nextMsgId + 1, conversation_id, "assistant", reply,
          tAssistant⟩] : List ConversationMessage),
      m1.timestamp ≤ m2.timestamp := by
    intro m1 hm1 m2 hm2
    rcases List.mem_cons.mp hm2 with h2 | h2
    · rw [h2]
      exact hbefore m1 hm1
    · rcases List.mem_cons.mp h2 with h3 | h3
      · rw [h3]
        exact Nat.le_trans (hbefore m1 hm1) hta
      · simp at h3
  have hall := List.pairwise_append.mpr ⟨hsorted, hpair2, hcross⟩
  rw [sortByTimestamp_of_sorted hall, sortByTimestamp_of_sorted hsorted]

/-- Witness for C4: the spec scenario — message `"Hi AI!"`, agent mocked to
reply `"Hello from AI"`, one prior row at time 2 — returns the reply and
appends the user row then the assistant row to the history. -/
theorem add_message_success_roundtrip_witness :
    add_message_to_conversation
      ⟨[sampleConv], [⟨0, 1, "user", "old", 2⟩], 1⟩
      (some (fun _ _ => .chatResponse "Hello from AI")) "key1" 1 "Hi AI!" 5 6
      = (.ok "Hello from AI",
         ⟨[sampleConv],
          [⟨0, 1, "user", "old", 2⟩, ⟨1, 1, "user", "Hi AI!", 5⟩,
           ⟨2, 1, "assistant", "Hello from AI", 6⟩],
          3⟩) ∧
    loadHistory (add_message_to_conversation
        ⟨[sampleConv], [⟨0, 1, "user", "old", 2⟩], 1⟩
        (some (fun _ _ => .chatResponse "Hello from AI")) "key1" 1 "Hi AI!"
        5 6).2 1
      = loadHistory ⟨[sampleConv], [⟨0, 1, "user", "old", 2⟩], 1⟩ 1 ++
          [⟨1, 1, "user", "Hi AI!", 5⟩,
           ⟨2, 1, "assistant", "Hello from AI", 6⟩] :=
  add_message_success_roundtrip
    ⟨[sampleConv], [⟨0, 1, "user", "old", 2⟩], 1⟩
    (fun _ _ => .chatResponse "Hello from AI") "key1" 1 "Hi AI!"
    "Hello from AI" 5 6 sampleConv
    (by decide) rfl rfl rfl (by decide) (by decide) (by decide)
